import Mathlib

/-!
# `util::expected<T>` (src/expected.hpp)

A shallow embedding of the class template `util::expected<T>`: the aligned
storage `val_`, the discriminant `valid_` and the mutable flag `unchecked_`
are the three fields of a record, and every member function is a function on
that record.  A member function that reads the storage through `p_T()` or
`p_Ex()` is a function into `Option`: `none` stands for a call with no defined
result (the storage is read as a type that is not alive there, or a null
handle is rethrown).  `swap`, whose body cannot be instantiated, has no result
at all.

The spec's words map to the code as follows: discriminant `Value` is
`valid_ = true`, discriminant `Failure` is `valid_ = false`, and
`examined = true` is `unchecked_ = false`.
-/

namespace util

/-- A `std::exception_ptr` over exception objects of type `X`: `none` is the
null handle, `some x` refers to the captured exception object `x`. -/
abbrev exception_ptr (X : Type) := Option X

/-- The state a `T` is left in after `std::move` took its content: the language
only promises some valid `T`, so the residue is a parameter of the model. -/
class MovedFrom (T : Type) where
  moved_from : T → T

/-- The object alive in the storage `val_` (an `aligned_union_t` of `T` and
`std::exception_ptr`): whatever the last placement `new` built there. -/
inductive val_t (T X : Type) where
  | T_obj (v : T)
  | Ex_obj (p : exception_ptr X)
deriving DecidableEq

/-- The data members of `expected<T>`. -/
structure expected (T X : Type) where
  val_ : val_t T X
  valid_ : Bool
  unchecked_ : Bool
deriving DecidableEq

/-- The two builds of the destructor: `LOG_UNCHECKED` defined, or not defined
(then `BOOST_ASSERT_MSG` guards the flag; the model takes the assertion as
enabled, the spec's strict mode). -/
inductive Build where
  | BOOST_ASSERT
  | LOG_UNCHECKED
deriving DecidableEq

/-- What a run of `~expected` shows to the outside. -/
inductive DtorEvent (X : Type) where
  | silent
  | assertion_failed (msg : String)
  | log_expected_unchecked (err : exception_ptr X)
deriving DecidableEq

/-- The unread-failure path of the destructor: the assertion fails, or the
sink `log_expected_unchecked` is called. -/
def DtorEvent.unread_failure_path {X : Type} : DtorEvent X → Bool
  | .silent => false
  | .assertion_failed _ => true
  | .log_expected_unchecked _ => true

/-- The error thrown by the factory template: `std::invalid_argument(what)`. -/
inductive std_error where
  | invalid_argument (what : String)
deriving DecidableEq

/-- An exception object: its dynamic (most derived) type and its content. -/
structure exception_object (Ty C : Type) where
  dyn : Ty
  content : C
deriving DecidableEq

/-- What the language knows about the types `Ty` that exceptions can have. -/
class TypeInfo (Ty : Type) where
  /-- The first type is an unambiguous public base class of the second (and
  not the same class). -/
  is_base : Ty → Ty → Bool
  /-- The type is a class with a virtual member function. -/
  polymorphic : Ty → Bool
  /-- The type is a pointer type or a pointer-to-member type. -/
  is_pointer : Ty → Bool
  /-- The type is `std::nullptr_t`. -/
  is_nullptr_t : Ty → Bool
  /-- The first type, a pointer or pointer-to-member type, converts to the
  second by a standard pointer conversion that does not go to a private,
  protected or ambiguous base class, by a function pointer conversion, or by a
  qualification conversion. -/
  pointer_converts : Ty → Ty → Bool

/-- Copy construction of the base subobject of type `E` out of an object of a
derived type: the content that survives. -/
class Sliceable (Ty C : Type) where
  slice : Ty → C → C

/-- The expression `typeid(exception)` for `exception` of static type
`const E &`: the dynamic type when `E` is polymorphic, else `E` itself. -/
def typeid_of {Ty C : Type} [TypeInfo Ty] (E : Ty) (exception : exception_object Ty C) : Ty :=
  if TypeInfo.polymorphic E then exception.dyn else E

/-- `std::make_exception_ptr(exception)` for `exception` of static type
`const E &`: a handle to a copy made at type `E`. -/
def make_exception_ptr {Ty C : Type} [DecidableEq Ty] [Sliceable Ty C] (E : Ty)
    (exception : exception_object Ty C) : exception_ptr (exception_object Ty C) :=
  if exception.dyn = E then some exception
  else some { dyn := E, content := Sliceable.slice E exception.content }

/-- The pointer case of handler matching: the handler type `E` is a pointer
or pointer-to-member type, and the exception type `D` is `std::nullptr_t` or a
pointer or pointer-to-member type that converts to `E`. -/
def pointer_handler_matches {Ty : Type} [TypeInfo Ty] (E D : Ty) : Bool :=
  TypeInfo.is_pointer E
    && (TypeInfo.is_nullptr_t D || (TypeInfo.is_pointer D && TypeInfo.pointer_converts D E))

/-- Whether a handler `catch (const E &)` takes an exception object of type
`D`: the same type, or `E` is an unambiguous public base class of `D`, or the
pointer case. -/
def handler_matches {Ty : Type} [DecidableEq Ty] [TypeInfo Ty] (E D : Ty) : Bool :=
  decide (D = E) || TypeInfo.is_base E D || pointer_handler_matches E D

namespace expected

variable {T X : Type}

/-- `p_T()`: the storage read as a `T`; defined only when a `T` lives there. -/
def p_T (e : expected T X) : Option T :=
  match e.val_ with
  | .T_obj v => some v
  | .Ex_obj _ => none

/-- `p_Ex()`: the storage read as a `std::exception_ptr`; defined only when a
handle lives there. -/
def p_Ex (e : expected T X) : Option (exception_ptr X) :=
  match e.val_ with
  | .T_obj _ => none
  | .Ex_obj p => some p

/-- `reset()`: runs the destructor of the representation that `valid_` names.
The result is only whether the call is defined. -/
def reset (e : expected T X) : Option Unit :=
  if e.valid_ then
    match e.p_T with
    | some _ => some ()
    | none => none
  else
    match e.p_Ex with
    | some _ => some ()
    | none => none

/-- `expected(const T & rhs)`. -/
def from_value (rhs : T) : expected T X :=
  { val_ := .T_obj rhs, valid_ := true, unchecked_ := false }

/-- `expected(T && rhs)`: the new instance and what is left of `rhs`. -/
def from_rvalue [MovedFrom T] (rhs : T) : expected T X × T :=
  ({ val_ := .T_obj rhs, valid_ := true, unchecked_ := false }, MovedFrom.moved_from rhs)

/-- `expected(const expected & rhs)`. -/
def copy_ctor (rhs : expected T X) : Option (expected T X) :=
  if rhs.valid_ then
    match rhs.p_T with
    | some v => some { val_ := .T_obj v, valid_ := rhs.valid_, unchecked_ := rhs.unchecked_ }
    | none => none
  else
    match rhs.p_Ex with
    | some p => some { val_ := .Ex_obj p, valid_ := rhs.valid_, unchecked_ := rhs.unchecked_ }
    | none => none

/-- `operator=(const expected & rhs)` on two distinct objects: `reset()`, then
a placement `new` chosen by `rhs.valid_`.  No other member is written. -/
def copy_assign (self rhs : expected T X) : Option (expected T X) :=
  match self.reset with
  | none => none
  | some _ =>
    if rhs.valid_ then
      match rhs.p_T with
      | some v => some { self with val_ := .T_obj v }
      | none => none
    else
      match rhs.p_Ex with
      | some p => some { self with val_ := .Ex_obj p }
      | none => none

/-- `expected(expected && rhs)`: the new instance and `rhs` after the call.  A
moved-from `std::exception_ptr` is null. -/
def move_ctor [MovedFrom T] (rhs : expected T X) : Option (expected T X × expected T X) :=
  if rhs.valid_ then
    match rhs.p_T with
    | some v =>
      some ({ val_ := .T_obj v, valid_ := rhs.valid_, unchecked_ := rhs.unchecked_ },
            { rhs with val_ := .T_obj (MovedFrom.moved_from v), unchecked_ := false })
    | none => none
  else
    match rhs.p_Ex with
    | some p =>
      some ({ val_ := .Ex_obj p, valid_ := rhs.valid_, unchecked_ := rhs.unchecked_ },
            { rhs with val_ := .Ex_obj none, unchecked_ := false })
    | none => none

/-- `operator=(expected && rhs)` on two distinct objects: `reset()`, then a
placement `new` from the moved payload.  Returns `*this` and `rhs` after the
call; no flag of either is written. -/
def move_assign [MovedFrom T] (self rhs : expected T X) :
    Option (expected T X × expected T X) :=
  match self.reset with
  | none => none
  | some _ =>
    if rhs.valid_ then
      match rhs.p_T with
      | some v =>
        some ({ self with val_ := .T_obj v },
              { rhs with val_ := .T_obj (MovedFrom.moved_from v) })
      | none => none
    else
      match rhs.p_Ex with
      | some p =>
        some ({ self with val_ := .Ex_obj p }, { rhs with val_ := .Ex_obj none })
      | none => none

/-- `~expected()`: the check of `unchecked_` of the build, then `reset()`.  A
failed assertion ends the program before `reset()`. -/
def destructor (b : Build) (e : expected T X) : Option (DtorEvent X) :=
  match b with
  | .LOG_UNCHECKED =>
    if e.unchecked_ then
      match e.p_Ex with
      | some p =>
        match e.reset with
        | some _ => some (.log_expected_unchecked p)
        | none => none
      | none => none
    else
      match e.reset with
      | some _ => some .silent
      | none => none
  | .BOOST_ASSERT =>
    if e.unchecked_ then some (.assertion_failed "error result not checked")
    else
      match e.reset with
      | some _ => some .silent
      | none => none

/-- `from_exception(std::exception_ptr p)`: the local `res` is filled in and
returned by value, that is, moved into the result.  The pair is the
returned instance and the local as it is when its destructor runs. -/
def from_exception [MovedFrom T] (p : exception_ptr X) :
    Option (expected T X × expected T X) :=
  move_ctor { val_ := .Ex_obj p, valid_ := false, unchecked_ := true }

/-- `from_exception()`: `current` is what `std::current_exception()` returns,
the failure being handled, or null when none is. -/
def from_exception_current [MovedFrom T] (current : exception_ptr X) :
    Except std_error (Option (expected T X × expected T X)) :=
  .ok (from_exception current)

/-- `valid()`: the answer and the instance after the call. -/
def valid (e : expected T X) : Bool × expected T X :=
  (e.valid_, { e with unchecked_ := false })

/-- `get()` (both overloads): `.ok v` is the returned value, `.error x` the
exception that `std::rethrow_exception` throws; the second component is
the instance after the call.  Rethrowing the null handle has no defined
result. -/
def get (e : expected T X) : Option (Except X T × expected T X) :=
  if !e.valid_ then
    match e.p_Ex with
    | some (some x) => some (.error x, { e with unchecked_ := false })
    | _ => none
  else
    match e.p_T with
    | some v => some (.ok v, { e with unchecked_ := false })
    | none => none

/-- `swap(expected & rhs)`.  The four cases of lines 112-130 are one function
body, and its last case (line 126) contains `*p_Ex()()`: a function call
applied to the `std::exception_ptr*` that `p_Ex()` returns, which is ill-formed
for every `T`.  A member function of a class template is instantiated as a
whole, so the body cannot be instantiated: a call `a.swap(b)` is rejected when
it is compiled, and no call has a result, whatever the discriminants of the
two objects. -/
def swap (_self _rhs : expected T X) : Option (expected T X × expected T X) :=
  none

/-- The storage agrees with the discriminant: a `T` lives there under
`valid_`, a handle (null or not) under `!valid_`. -/
def well_formed (e : expected T X) : Bool :=
  match e.val_ with
  | .T_obj _ => e.valid_
  | .Ex_obj _ => !e.valid_

/-- The instance holds a value, or a handle to a captured exception: the
storage agrees with the discriminant and a handle in it is not null. -/
def holds_value_or_failure (e : expected T X) : Bool :=
  match e.val_ with
  | .T_obj _ => e.valid_
  | .Ex_obj p => !e.valid_ && p.isSome

section typed

variable {Ty C : Type} [DecidableEq Ty] [TypeInfo Ty]

/-- `from_exception<E>(const E & exception)`. -/
def from_exception_typed [MovedFrom T] [Sliceable Ty C] (E : Ty)
    (exception : exception_object Ty C) :
    Except std_error
      (Option (expected T (exception_object Ty C) × expected T (exception_object Ty C))) :=
  if typeid_of E exception ≠ E then .error (.invalid_argument "slicing detected")
  else .ok (from_exception (make_exception_ptr E exception))

/-- `has_exception<E>()`: the answer and the instance after the call.  The
rethrown exception is taken by `catch (const E &)` or by `catch (...)`. -/
def has_exception (E : Ty) (e : expected T (exception_object Ty C)) :
    Option (Bool × expected T (exception_object Ty C)) :=
  if !e.valid_ then
    match e.p_Ex with
    | some (some x) =>
      if handler_matches E x.dyn then some (true, { e with unchecked_ := false })
      else some (false, { e with unchecked_ := false })
    | _ => none
  else some (false, { e with unchecked_ := false })

end typed

end expected

/-! ## A concrete instantiation, used to evaluate the code -/

/-- A small family of exception types: two polymorphic classes, one publicly
derived from the other, a class privately derived from `runtime_error`, two
classes without virtual members, one derived from the other, `int`, `int*`,
`void*` and `std::nullptr_t`. -/
inductive SampleType where
  | runtime_error
  | range_error
  | private_error
  | plain_base
  | plain_derived
  | int
  | int_ptr
  | void_ptr
  | nullptr_t
deriving DecidableEq

instance : TypeInfo SampleType where
  is_base
    | .runtime_error, .range_error => true
    | .plain_base, .plain_derived => true
    | _, _ => false
  polymorphic
    | .runtime_error => true
    | .range_error => true
    | .private_error => true
    | _ => false
  is_pointer
    | .int_ptr => true
    | .void_ptr => true
    | _ => false
  is_nullptr_t
    | .nullptr_t => true
    | _ => false
  pointer_converts
    | .int_ptr, .void_ptr => true
    | _, _ => false

/-- The content of a sample exception is a list of member values, base class
members first; a `plain_base` subobject is the first member. -/
instance : Sliceable SampleType (List Nat) where
  slice
    | .plain_base, c => c.take 1
    | _, c => c

/-- Moving an `int` copies it. -/
instance : MovedFrom Nat where
  moved_from v := v

/-- The exception objects of the concrete instantiation. -/
abbrev SampleEx := exception_object SampleType (List Nat)

/-- A captured `runtime_error`. -/
def sample_error : SampleEx := { dyn := .runtime_error, content := [7] }

/-- The state of `expected<int>::from_exception(p)` for a handle `p` to
`sample_error`, not inspected. -/
def sample_failure : expected Nat SampleEx :=
  { val_ := .Ex_obj (some sample_error), valid_ := false, unchecked_ := true }

/-- The flag invariant: `unchecked_` implies `!valid_`. -/
def expected.flag_invariant {T X : Type} (e : expected T X) : Bool :=
  !e.unchecked_ || !e.valid_

/-- The states an `expected<T>` object can be in: those that the public
constructors and factories produce, closed under every public member function
(copy and move construction, copy and move assignment, `swap`, `valid`, `get`,
`has_exception`), for every object the call touches and whenever the call has
a result. -/
inductive expected.reachable {T Ty C : Type} [MovedFrom T] [DecidableEq Ty] [TypeInfo Ty]
    [Sliceable Ty C] : expected T (exception_object Ty C) → Prop where
  | from_value (v : T) : reachable (expected.from_value v)
  | from_rvalue (v : T) : reachable (expected.from_rvalue v).1
  | from_exception (p : exception_ptr (exception_object Ty C)) (r l) :
      expected.from_exception p = some (r, l) → reachable r
  | from_exception_typed (E : Ty) (x : exception_object Ty C) (r l) :
      expected.from_exception_typed E x = .ok (some (r, l)) → reachable r
  | from_exception_current (current : exception_ptr (exception_object Ty C)) (r l) :
      expected.from_exception_current current = .ok (some (r, l)) → reachable r
  | copy_ctor (a c) : reachable a → expected.copy_ctor a = some c → reachable c
  | move_ctor_new (a b a1) : reachable a → expected.move_ctor a = some (b, a1) → reachable b
  | move_ctor_source (a b a1) :
      reachable a → expected.move_ctor a = some (b, a1) → reachable a1
  | copy_assign (d s d1) :
      reachable d → reachable s → expected.copy_assign d s = some d1 → reachable d1
  | move_assign_dest (d s d1 s1) :
      reachable d → reachable s → expected.move_assign d s = some (d1, s1) → reachable d1
  | move_assign_source (d s d1 s1) :
      reachable d → reachable s → expected.move_assign d s = some (d1, s1) → reachable s1
  | swap_self (a b a1 b1) :
      reachable a → reachable b → expected.swap a b = some (a1, b1) → reachable a1
  | swap_rhs (a b a1 b1) :
      reachable a → reachable b → expected.swap a b = some (a1, b1) → reachable b1
  | valid (a) : reachable a → reachable a.valid.2
  | get (a res a1) : reachable a → expected.get a = some (res, a1) → reachable a1
  | has_exception (E : Ty) (a ans a1) :
      reachable a → expected.has_exception E a = some (ans, a1) → reachable a1

/-! ## `util::error::info_holder` (src/exception_base.hpp) -/

namespace error

/-- A `boost::system::error_category`, as far as `operator<<` uses it: its
`name()` and its `message(int)`. -/
structure error_category where
  name : String
  message : Int → String

/-- A `boost::system::error_code`: a value and a category. -/
structure error_code where
  value : Int
  category : error_category

/-- `error_code::message()`: the message the category gives for the value. -/
def error_code.message (ec : error_code) : String :=
  ec.category.message ec.value

/-- A `std::ostream` in its default formatting state, as the text written to
it so far. -/
abbrev ostream := String

/-- The text `stm << n` writes for an `int n` under default formatting: the
decimal digits, after a minus sign when `n` is negative. -/
def decimal (n : Int) : String :=
  toString n

/-- `struct info_holder`. -/
structure info_holder where
  _ec : error_code

/-- `operator<<(std::ostream & stm, info_holder const & that)`: the stream
after the six insertions. -/
def info_holder.operator_shl (stm : ostream) (that : info_holder) : ostream :=
  stm ++ "error_code(" ++ that._ec.message
    ++ ", ec=" ++ decimal that._ec.value
    ++ ", ecat=" ++ that._ec.category.name
    ++ ")"

/-- The generic category restricted to two values, for evaluation. -/
def sample_category : error_category :=
  { name := "generic",
    message := fun n => if n = 2 then "No such file or directory" else "Unknown error" }

end error

/-! ## Construction, inspection and destruction -/

namespace expected

section claims

variable {T X Ty C : Type}

/-- C1: for every handle `f`, null included, `from_exception(f)` returns
an instance with `valid_ = false`, `unchecked_ = true` and `f` in the storage;
its destructor, run with no inspection before, fails the assertion in the
assertion build and calls `log_expected_unchecked(f)` in the logging build;
the local of the factory, moved from, is destroyed silently in both builds;
and `from_exception<E>(e)` for `e` of dynamic type `E` is `from_exception` of
a handle to `e`. -/
theorem from_exception_unread [MovedFrom T] [DecidableEq Ty] [TypeInfo Ty] [Sliceable Ty C]
    (f : exception_ptr X) (e : exception_object Ty C) :
    (∃ r l : expected T X, from_exception f = some (r, l)
      ∧ r.valid_ = false ∧ r.unchecked_ = true ∧ r.val_ = .Ex_obj f
      ∧ r.destructor .BOOST_ASSERT = some (.assertion_failed "error result not checked")
      ∧ r.destructor .LOG_UNCHECKED = some (.log_expected_unchecked f)
      ∧ (∀ b ev, r.destructor b = some ev → ev.unread_failure_path = true)
      ∧ (∀ b, l.destructor b = some .silent))
    ∧ (from_exception_typed e.dyn e :
        Except std_error (Option (expected T _ × expected T _)))
        = .ok (from_exception (some e)) := by
  refine ⟨⟨⟨.Ex_obj f, false, true⟩, ⟨.Ex_obj none, false, false⟩, rfl, rfl, rfl, rfl, rfl, rfl,
    ?_, ?_⟩, ?_⟩
  · intro b ev h
    cases b <;> simp [destructor, p_Ex, reset] at h <;> subst h <;> rfl
  · intro b
    cases b <;> rfl
  · simp [from_exception_typed, typeid_of, make_exception_ptr]

/-- C2: an instance made by `from_exception(f)` and inspected once is destroyed
silently in both builds.  `valid()` is an inspection for every handle `f`;
`get()` (which throws the captured exception `x`) and `has_exception<K>()`
are inspections for every handle `some x` to a captured exception; on the
null handle these two rethrow a null pointer and have no defined result, so
nothing is left to destroy. -/
theorem inspected_failure_destroyed_silently [MovedFrom T] [DecidableEq Ty] [TypeInfo Ty]
    (f : exception_ptr (exception_object Ty C)) (x : exception_object Ty C) (K : Ty) :
    (∃ r l : expected T (exception_object Ty C), from_exception f = some (r, l)
      ∧ r.valid.1 = false
      ∧ ∀ b, r.valid.2.destructor b = some .silent)
    ∧ (∃ r l r1 r2 : expected T (exception_object Ty C), ∃ ans : Bool,
        from_exception (some x) = some (r, l)
        ∧ r.get = some (.error x, r1)
        ∧ (∀ b, r1.destructor b = some .silent)
        ∧ r.has_exception K = some (ans, r2)
        ∧ (∀ b, r2.destructor b = some .silent))
    ∧ (∃ r l : expected T (exception_object Ty C), from_exception none = some (r, l)
        ∧ r.get = none ∧ r.has_exception K = none) := by
  refine ⟨⟨⟨.Ex_obj f, false, true⟩, ⟨.Ex_obj none, false, false⟩, rfl, rfl, ?_⟩,
    ⟨⟨.Ex_obj (some x), false, true⟩, ⟨.Ex_obj none, false, false⟩,
      ⟨.Ex_obj (some x), false, false⟩, ⟨.Ex_obj (some x), false, false⟩,
      handler_matches K x.dyn, rfl, rfl, ?_, ?_, ?_⟩,
    ⟨⟨.Ex_obj none, false, true⟩, ⟨.Ex_obj none, false, false⟩, rfl, rfl, rfl⟩⟩
  · intro b
    cases b <;> rfl
  · intro b
    cases b <;> rfl
  · cases h : handler_matches K x.dyn <;> simp [has_exception, p_Ex, h]
  · intro b
    cases b <;> rfl

/-- C3: the instance built from a value `v`, by copy or by move, answers
`valid()` with `true`, returns `v` from `get()` without throwing, is left
unchanged by both inspections, and is destroyed silently in both builds,
inspected or not. -/
theorem value_instance_valid_get_silent [MovedFrom T] (v : T) :
    (from_rvalue v).1 = (from_value v : expected T X)
    ∧ (from_value v : expected T X).valid = (true, from_value v)
    ∧ (from_value v : expected T X).get = some (.ok v, from_value v)
    ∧ (∀ b, (from_value v : expected T X).destructor b = some .silent)
    ∧ (∀ b ev, (from_value v : expected T X).destructor b = some ev
        → ev.unread_failure_path = false) := by
  refine ⟨rfl, rfl, rfl, ?_, ?_⟩
  · intro b
    cases b <;> rfl
  · intro b ev h
    cases b <;> simp [destructor, from_value, reset, p_T] at h <;> subst h <;> rfl

/-- C4, as stated, fails on a Failure instance whose handle is null:
`from_exception` of the null handle returns an instance with `valid_ = false`
on which `get()` rethrows a null pointer, which neither returns nor throws a
captured exception. -/
theorem get_null_handle_no_result :
    ∃ r l : expected Nat SampleEx, from_exception none = some (r, l)
      ∧ r.valid_ = false ∧ r.get = none
      ∧ ¬ ∃ x r1, r.get = some (.error x, r1) :=
  ⟨⟨.Ex_obj none, false, true⟩, ⟨.Ex_obj none, false, false⟩, rfl, rfl, rfl,
    fun ⟨_, _, h⟩ => nomatch h⟩

/-- C4, amended: on an instance that holds a value or a handle to a captured
exception, `get()` has a result and leaves the instance as it was but for
`unchecked_ = false`; it throws exactly when `valid_` is false; what it throws
is the exception the stored handle refers to, and what it returns is the
stored value.  On every instance with `valid_ = false` and the null handle,
`get()` has no defined result. -/
theorem get_raises_iff_failure (e : expected T X) (h : e.holds_value_or_failure = true) :
    (∃ res, e.get = some (res, { e with unchecked_ := false })
      ∧ ((∃ x, res = .error x) ↔ e.valid_ = false)
      ∧ (∀ x, res = .error x → e.val_ = .Ex_obj (some x))
      ∧ (∀ v, res = .ok v → e.val_ = .T_obj v))
    ∧ (∀ e0 : expected T X, e0.valid_ = false → e0.val_ = .Ex_obj none → e0.get = none) := by
  constructor
  · obtain ⟨val, vd, un⟩ := e
    cases val with
    | T_obj v =>
      simp only [holds_value_or_failure] at h
      subst h
      exact ⟨.ok v, rfl, by simp, by simp, by simp⟩
    | Ex_obj p =>
      cases p with
      | none => simp [holds_value_or_failure] at h
      | some x =>
        simp [holds_value_or_failure] at h
        subst h
        exact ⟨.error x, rfl, by simp, by simp, by simp⟩
  · intro e0 h1 h2
    simp [get, p_Ex, h1, h2]

/-- C4, amended, at the Failure instance that holds a `runtime_error`. -/
theorem get_raises_iff_failure_witness :
    sample_failure.holds_value_or_failure = true
    ∧ ((∃ res, sample_failure.get = some (res, { sample_failure with unchecked_ := false })
        ∧ ((∃ x, res = .error x) ↔ sample_failure.valid_ = false)
        ∧ (∀ x, res = .error x → sample_failure.val_ = .Ex_obj (some x))
        ∧ (∀ v, res = .ok v → sample_failure.val_ = .T_obj v))
      ∧ (∀ e0 : expected Nat SampleEx,
          e0.valid_ = false → e0.val_ = .Ex_obj none → e0.get = none)) :=
  ⟨rfl, get_raises_iff_failure sample_failure rfl⟩

/-- C5 at `d = expected<int>(1)`, `s = from_exception(p)`: after `d = s` the
destination holds the handle of `s` in its storage, but its discriminant is
still `valid_ = true` and its flag still `unchecked_ = false`, where `s` has
`valid_ = false` and `unchecked_ = true`.  The destination then reads its
storage as an `int`: neither `get()` nor its destructor has a defined result.
With two Failure instances the flag of the source is not copied either. -/
theorem copy_assign_keeps_destination_flags :
    (∃ s l : expected Nat SampleEx, from_exception (some sample_error) = some (s, l)
      ∧ s = sample_failure
      ∧ ∃ d1, copy_assign (from_value 1) s = some d1
        ∧ d1 = ⟨.Ex_obj (some sample_error), true, false⟩
        ∧ d1.valid_ ≠ s.valid_ ∧ d1.unchecked_ ≠ s.unchecked_
        ∧ d1.get = none ∧ (∀ b, d1.destructor b = none))
    ∧ (∃ d1, copy_assign (sample_failure.valid.2) sample_failure = some d1
        ∧ d1.unchecked_ = false ∧ sample_failure.unchecked_ = true) := by
  refine ⟨⟨_, _, rfl, rfl, _, rfl, rfl, by decide, by decide, rfl, ?_⟩, ⟨_, rfl, rfl, rfl⟩⟩
  intro b
  cases b <;> rfl

/-- C6 at `d = expected<int>(1)`, `s = from_exception(p)`: after
`d = std::move(s)` the destination holds the handle in its storage but still
has `valid_ = true` and `unchecked_ = false`, and the source still has
`unchecked_ = true`, so that destroying the source fails the assertion in the
assertion build and calls the sink, with the null handle, in the logging
build. -/
theorem move_assign_keeps_flags :
    ∃ s l : expected Nat SampleEx, from_exception (some sample_error) = some (s, l)
      ∧ s = sample_failure
      ∧ ∃ d1 s1, move_assign (from_value 1) s = some (d1, s1)
        ∧ d1 = ⟨.Ex_obj (some sample_error), true, false⟩
        ∧ s1 = ⟨.Ex_obj none, false, true⟩
        ∧ d1.valid_ ≠ s.valid_ ∧ d1.unchecked_ ≠ s.unchecked_
        ∧ s1.unchecked_ = true
        ∧ s1.destructor .BOOST_ASSERT = some (.assertion_failed "error result not checked")
        ∧ s1.destructor .LOG_UNCHECKED = some (.log_expected_unchecked none) :=
  ⟨_, _, rfl, rfl, _, _, rfl, rfl, rfl, by decide, by decide, rfl, rfl, rfl⟩

/-- C7: move construction from an instance `A` whose storage agrees with its
discriminant (either discriminant, either flag) yields `B` with the
discriminant, payload and flag `A` had, and leaves `A` with the same
discriminant and `unchecked_ = false`, so that `A` is destroyed silently in
both builds. -/
theorem move_ctor_source_examined [MovedFrom T] (A : expected T X)
    (h : A.well_formed = true) :
    ∃ B A1, move_ctor A = some (B, A1)
      ∧ A1.unchecked_ = false ∧ A1.valid_ = A.valid_
      ∧ (∀ b, A1.destructor b = some .silent)
      ∧ B.valid_ = A.valid_ ∧ B.val_ = A.val_ ∧ B.unchecked_ = A.unchecked_ := by
  obtain ⟨val, vd, un⟩ := A
  cases val with
  | T_obj v =>
    simp only [well_formed] at h
    subst h
    refine ⟨_, _, rfl, rfl, rfl, ?_, rfl, rfl, rfl⟩
    intro b
    cases b <;> rfl
  | Ex_obj p =>
    simp [well_formed] at h
    subst h
    refine ⟨_, _, rfl, rfl, rfl, ?_, rfl, rfl, rfl⟩
    intro b
    cases b <;> rfl

/-- C7 at the uninspected Failure instance that holds a `runtime_error`. -/
theorem move_ctor_source_examined_witness :
    sample_failure.well_formed = true
    ∧ ∃ B A1, move_ctor sample_failure = some (B, A1)
      ∧ A1.unchecked_ = false ∧ A1.valid_ = sample_failure.valid_
      ∧ (∀ b, A1.destructor b = some .silent)
      ∧ B.valid_ = sample_failure.valid_ ∧ B.val_ = sample_failure.val_
      ∧ B.unchecked_ = sample_failure.unchecked_ :=
  ⟨rfl, move_ctor_source_examined sample_failure rfl⟩

/-- C8, as stated, fails when no failure is being handled:
`std::current_exception()` is then null, and `from_exception()` throws nothing
and returns an instance with `valid_ = false`, `unchecked_ = true` and the null
handle in its storage. -/
theorem from_exception_current_null_returns :
    (from_exception_current none :
        Except std_error (Option (expected Nat SampleEx × expected Nat SampleEx)))
      = .ok (some (⟨.Ex_obj none, false, true⟩, ⟨.Ex_obj none, false, false⟩))
    ∧ ∀ err, (from_exception_current none :
        Except std_error (Option (expected Nat SampleEx × expected Nat SampleEx)))
      ≠ .error err :=
  ⟨rfl, fun _ h => nomatch h⟩

/-- C8, amended: `from_exception()` never throws; it returns an instance with
`valid_ = false` and `unchecked_ = true` whose storage holds what
`std::current_exception()` returned: the failure being handled, or the null
handle when none is.  Its moved-from local has `unchecked_ = false`. -/
theorem from_exception_current_captures [MovedFrom T] (current : exception_ptr X) :
    (from_exception_current current :
        Except std_error (Option (expected T X × expected T X)))
      = .ok (some (⟨.Ex_obj current, false, true⟩, ⟨.Ex_obj none, false, false⟩)) :=
  rfl

/-- C9, as stated, fails for a static type without virtual members: for `e` of
dynamic type `plain_derived` passed as `const plain_base &`, `typeid` reports
`plain_base`, nothing is thrown, and the instance returned holds a copy of the
`plain_base` subobject, not `e`. -/
theorem from_exception_typed_plain_base_returns :
    (⟨.plain_derived, [1, 2]⟩ : SampleEx).dyn ≠ SampleType.plain_base
    ∧ (from_exception_typed .plain_base ⟨.plain_derived, [1, 2]⟩ :
        Except std_error (Option (expected Nat SampleEx × expected Nat SampleEx)))
      = .ok (some (⟨.Ex_obj (some ⟨.plain_base, [1]⟩), false, true⟩,
                   ⟨.Ex_obj none, false, false⟩)) :=
  ⟨by decide, rfl⟩

/-- C9, amended: `from_exception<E>(e)` throws `std::invalid_argument` exactly
when `E` is polymorphic and the dynamic type of `e` is not `E`; then
no instance is returned.  Otherwise it returns an instance with `valid_ = false`
and `unchecked_ = true` that holds a copy of `e` made at type `E`, which is
`e` itself when its dynamic type is `E`. -/
theorem from_exception_typed_slicing [MovedFrom T] [DecidableEq Ty] [TypeInfo Ty]
    [Sliceable Ty C] (E : Ty) (e : exception_object Ty C) :
    ((from_exception_typed E e :
          Except std_error
            (Option (expected T (exception_object Ty C) × expected T (exception_object Ty C))))
        = .error (.invalid_argument "slicing detected")
      ↔ (TypeInfo.polymorphic E = true ∧ e.dyn ≠ E))
    ∧ ((from_exception_typed E e :
          Except std_error
            (Option (expected T (exception_object Ty C) × expected T (exception_object Ty C))))
        = if TypeInfo.polymorphic E = true ∧ e.dyn ≠ E then
            .error (.invalid_argument "slicing detected")
          else
            .ok (some (⟨.Ex_obj (make_exception_ptr E e), false, true⟩,
                       ⟨.Ex_obj none, false, false⟩)))
    ∧ make_exception_ptr e.dyn e = some e := by
  have key : (from_exception_typed E e :
          Except std_error
            (Option (expected T (exception_object Ty C) × expected T (exception_object Ty C))))
        = if TypeInfo.polymorphic E = true ∧ e.dyn ≠ E then
            .error (.invalid_argument "slicing detected")
          else
            .ok (some (⟨.Ex_obj (make_exception_ptr E e), false, true⟩,
                       ⟨.Ex_obj none, false, false⟩)) := by
    unfold from_exception_typed typeid_of
    cases hp : TypeInfo.polymorphic E
    · simp
      rfl
    · by_cases hd : e.dyn = E
      · simp [hd]
        rfl
      · simp [hd]
  refine ⟨?_, key, by simp [make_exception_ptr]⟩
  rw [key]
  split <;> simp_all

/-- C10: `swap` has no result on any pair of instances, in any of the four
discriminant combinations: line 126 (`*p_Ex()()`) is part of its one body, so
no call `a.swap(b)` can be compiled, and discriminant, payload and flag are
never exchanged. -/
theorem swap_no_result (a b : expected T X) :
    swap a b = none
    ∧ swap (from_value 1 : expected Nat SampleEx) (from_value 2) = none
    ∧ swap (from_value 1) sample_failure = none
    ∧ swap sample_failure (from_value 1) = none
    ∧ swap sample_failure sample_failure.valid.2 = none :=
  ⟨rfl, rfl, rfl, rfl, rfl⟩

/-! ## Swap, kind tests and copies -/

/-- C11: for `a = expected(v)` and `b = from_exception(err)` the first
`a.swap(b)` already has no result (line 126 is part of the one body of
`swap`), so `a` does not come to hold `err`, `b` does not come to hold `v`,
and there is no second swap to restore anything; the same holds for every
pair of instances. -/
theorem swap_twice_no_result [MovedFrom T] (v : T) (err : exception_ptr X)
    (a b : expected T X) :
    (∃ r l : expected T X, from_exception err = some (r, l)
      ∧ swap (from_value v) r = none
      ∧ (swap (from_value v) r).bind (fun q => swap q.1 q.2) = none)
    ∧ swap a b = none
    ∧ (swap a b).bind (fun q => swap q.1 q.2) = none :=
  ⟨⟨_, _, rfl, rfl, rfl⟩, rfl, rfl⟩

/-- C12, as stated, fails on a Failure instance whose handle is null: there
`has_exception<E>()` rethrows a null pointer and returns neither `true` nor
`false`. -/
theorem has_exception_null_handle_no_result :
    ∃ r l : expected Nat SampleEx, from_exception none = some (r, l)
      ∧ r.valid_ = false ∧ r.has_exception SampleType.runtime_error = none
      ∧ ¬ ∃ ans r1, r.has_exception SampleType.runtime_error = some (ans, r1) :=
  ⟨⟨.Ex_obj none, false, true⟩, ⟨.Ex_obj none, false, false⟩, rfl, rfl, rfl,
    fun ⟨_, _, h⟩ => nomatch h⟩

/-- C12, amended: on an instance that holds a value or a handle to a captured
exception, `has_exception<E>()` returns a boolean (it throws nothing), leaves
the instance as it was but for `unchecked_ = false`, and returns `true`
exactly when `valid_` is false and a handler `catch (const E &)` takes the
stored exception; it returns `false` on every instance with `valid_ = true`.
On every instance with `valid_ = false` and the null handle it has no defined
result. -/
theorem has_exception_true_iff [DecidableEq Ty] [TypeInfo Ty] (E : Ty)
    (e : expected T (exception_object Ty C)) (h : e.holds_value_or_failure = true) :
    (∃ ans, e.has_exception E = some (ans, { e with unchecked_ := false })
      ∧ (ans = true ↔
          e.valid_ = false ∧ ∃ x, e.val_ = .Ex_obj (some x) ∧ handler_matches E x.dyn = true)
      ∧ (e.valid_ = true → ans = false))
    ∧ (∀ e0 : expected T (exception_object Ty C), e0.valid_ = true →
        e0.has_exception E = some (false, { e0 with unchecked_ := false }))
    ∧ (∀ e0 : expected T (exception_object Ty C),
        e0.valid_ = false → e0.val_ = .Ex_obj none → e0.has_exception E = none) := by
  refine ⟨?_, ?_, ?_⟩
  · obtain ⟨val, vd, un⟩ := e
    cases val with
    | T_obj v =>
      simp only [holds_value_or_failure] at h
      subst h
      exact ⟨false, rfl, by simp, by simp⟩
    | Ex_obj p =>
      cases p with
      | none => simp [holds_value_or_failure] at h
      | some x =>
        simp [holds_value_or_failure] at h
        subst h
        cases hm : handler_matches E x.dyn
        · exact ⟨false, by simp [has_exception, p_Ex, hm], by simp [hm], by simp⟩
        · exact ⟨true, by simp [has_exception, p_Ex, hm], by simp [hm], by simp⟩
  · intro e0 h1
    simp [has_exception, h1]
  · intro e0 h1 h2
    simp [has_exception, p_Ex, h1, h2]

/-- C12, amended, at the Failure instance that holds a `runtime_error`,
tested for `runtime_error`. -/
theorem has_exception_true_iff_witness :
    sample_failure.holds_value_or_failure = true
    ∧ ((∃ ans, sample_failure.has_exception SampleType.runtime_error
            = some (ans, { sample_failure with unchecked_ := false })
        ∧ (ans = true ↔
            sample_failure.valid_ = false
            ∧ ∃ x, sample_failure.val_ = .Ex_obj (some x)
              ∧ handler_matches SampleType.runtime_error x.dyn = true)
        ∧ (sample_failure.valid_ = true → ans = false))
      ∧ (∀ e0 : expected Nat SampleEx, e0.valid_ = true →
          e0.has_exception SampleType.runtime_error
            = some (false, { e0 with unchecked_ := false }))
      ∧ (∀ e0 : expected Nat SampleEx,
          e0.valid_ = false → e0.val_ = .Ex_obj none →
          e0.has_exception SampleType.runtime_error = none)) :=
  ⟨rfl, has_exception_true_iff SampleType.runtime_error sample_failure rfl⟩

/-- C13, as stated, fails for three pairs of different kinds: a stored
`range_error` tested for its public base `runtime_error`, a stored `int*`
tested for `void*`, and a stored `std::nullptr_t` tested for `int*`; in each
`has_exception<KindA>()` returns `true`, because `catch (const KindA &)`
takes these exceptions. -/
theorem has_exception_base_kind_true :
    (SampleType.range_error ≠ SampleType.runtime_error
      ∧ ∃ r l : expected Nat SampleEx,
          from_exception_typed SampleType.range_error ⟨.range_error, [1]⟩ = .ok (some (r, l))
          ∧ r.has_exception SampleType.runtime_error
              = some (true, { r with unchecked_ := false }))
    ∧ (SampleType.int_ptr ≠ SampleType.void_ptr
      ∧ ∃ r l : expected Nat SampleEx,
          from_exception_typed SampleType.int_ptr ⟨.int_ptr, [1]⟩ = .ok (some (r, l))
          ∧ r.has_exception SampleType.void_ptr
              = some (true, { r with unchecked_ := false }))
    ∧ (SampleType.nullptr_t ≠ SampleType.int_ptr
      ∧ ∃ r l : expected Nat SampleEx,
          from_exception_typed SampleType.nullptr_t ⟨.nullptr_t, []⟩ = .ok (some (r, l))
          ∧ r.has_exception SampleType.int_ptr
              = some (true, { r with unchecked_ := false })) :=
  ⟨⟨by decide, _, _, rfl, rfl⟩, ⟨by decide, _, _, rfl, rfl⟩, ⟨by decide, _, _, rfl, rfl⟩⟩

/-- C13, amended: on the instance that `from_exception<KindB>` makes from an
exception of kind KindB, with KindA different from KindB,
`has_exception<KindA>()` returns `true` when KindA is an unambiguous public
base class of KindB, and when KindA is a pointer or pointer-to-member type
and KindB is `std::nullptr_t` or a pointer or pointer-to-member type that
converts to KindA; it returns `false` in every other case.  In every case the
instance is left with `unchecked_ = false` and is destroyed silently in both
builds. -/
theorem has_exception_kind_answer [MovedFrom T] [DecidableEq Ty] [TypeInfo Ty]
    [Sliceable Ty C] (KindA : Ty) (x : exception_object Ty C) (hne : x.dyn ≠ KindA) :
    ∃ r l r1 : expected T (exception_object Ty C),
      from_exception_typed x.dyn x = .ok (some (r, l))
      ∧ r.val_ = .Ex_obj (some x)
      ∧ r.has_exception KindA
          = some (TypeInfo.is_base KindA x.dyn
                    || (TypeInfo.is_pointer KindA
                        && (TypeInfo.is_nullptr_t x.dyn
                            || (TypeInfo.is_pointer x.dyn
                                && TypeInfo.pointer_converts x.dyn KindA))), r1)
      ∧ (TypeInfo.is_base KindA x.dyn = true → r.has_exception KindA = some (true, r1))
      ∧ (TypeInfo.is_pointer KindA = true → TypeInfo.is_nullptr_t x.dyn = true →
          r.has_exception KindA = some (true, r1))
      ∧ (TypeInfo.is_pointer KindA = true → TypeInfo.is_pointer x.dyn = true →
          TypeInfo.pointer_converts x.dyn KindA = true →
          r.has_exception KindA = some (true, r1))
      ∧ (TypeInfo.is_base KindA x.dyn = false →
          (TypeInfo.is_pointer KindA = false
            ∨ (TypeInfo.is_nullptr_t x.dyn = false
                ∧ (TypeInfo.is_pointer x.dyn = false
                    ∨ TypeInfo.pointer_converts x.dyn KindA = false))) →
          r.has_exception KindA = some (false, r1))
      ∧ r1.unchecked_ = false
      ∧ (∀ b, r1.destructor b = some .silent) := by
  have key : (⟨.Ex_obj (some x), false, true⟩ : expected T (exception_object Ty C)).has_exception
      KindA = some (TypeInfo.is_base KindA x.dyn
                    || (TypeInfo.is_pointer KindA
                        && (TypeInfo.is_nullptr_t x.dyn
                            || (TypeInfo.is_pointer x.dyn
                                && TypeInfo.pointer_converts x.dyn KindA))),
                ⟨.Ex_obj (some x), false, false⟩) := by
    have hm : handler_matches KindA x.dyn
        = (TypeInfo.is_base KindA x.dyn
            || (TypeInfo.is_pointer KindA
                && (TypeInfo.is_nullptr_t x.dyn
                    || (TypeInfo.is_pointer x.dyn
                        && TypeInfo.pointer_converts x.dyn KindA)))) := by
      simp [handler_matches, pointer_handler_matches, hne]
    rw [← hm]
    cases h : handler_matches KindA x.dyn <;> simp [has_exception, p_Ex, h]
  refine ⟨⟨.Ex_obj (some x), false, true⟩, ⟨.Ex_obj none, false, false⟩,
    ⟨.Ex_obj (some x), false, false⟩, ?_, rfl, key, ?_, ?_, ?_, ?_, rfl, ?_⟩
  · simp [from_exception_typed, typeid_of, make_exception_ptr]
    rfl
  · intro h
    rw [key, h]
    rfl
  · intro h1 h2
    rw [key, h1, h2]
    simp
  · intro h1 h2 h3
    rw [key, h1, h2, h3]
    simp
  · intro h1 h2
    rw [key, h1]
    rcases h2 with h2 | ⟨h2, h3 | h3⟩ <;> simp [*]
  · intro b
    cases b <;> rfl

/-- C13, amended, at a captured `private_error`, a class privately derived
from `runtime_error`, tested for `runtime_error`: the answer is `false`. -/
theorem has_exception_kind_answer_witness :
    (⟨.private_error, [3]⟩ : SampleEx).dyn ≠ SampleType.runtime_error
    ∧ ∃ r l r1 : expected Nat SampleEx,
      from_exception_typed (⟨.private_error, [3]⟩ : SampleEx).dyn ⟨.private_error, [3]⟩
        = .ok (some (r, l))
      ∧ r.val_ = .Ex_obj (some ⟨.private_error, [3]⟩)
      ∧ r.has_exception SampleType.runtime_error
          = some (TypeInfo.is_base SampleType.runtime_error (⟨.private_error, [3]⟩ : SampleEx).dyn
                    || (TypeInfo.is_pointer SampleType.runtime_error
                        && (TypeInfo.is_nullptr_t (⟨.private_error, [3]⟩ : SampleEx).dyn
                            || (TypeInfo.is_pointer (⟨.private_error, [3]⟩ : SampleEx).dyn
                                && TypeInfo.pointer_converts
                                    (⟨.private_error, [3]⟩ : SampleEx).dyn
                                    SampleType.runtime_error))), r1)
      ∧ (TypeInfo.is_base SampleType.runtime_error (⟨.private_error, [3]⟩ : SampleEx).dyn = true →
          r.has_exception SampleType.runtime_error = some (true, r1))
      ∧ (TypeInfo.is_pointer SampleType.runtime_error = true →
          TypeInfo.is_nullptr_t (⟨.private_error, [3]⟩ : SampleEx).dyn = true →
          r.has_exception SampleType.runtime_error = some (true, r1))
      ∧ (TypeInfo.is_pointer SampleType.runtime_error = true →
          TypeInfo.is_pointer (⟨.private_error, [3]⟩ : SampleEx).dyn = true →
          TypeInfo.pointer_converts (⟨.private_error, [3]⟩ : SampleEx).dyn
            SampleType.runtime_error = true →
          r.has_exception SampleType.runtime_error = some (true, r1))
      ∧ (TypeInfo.is_base SampleType.runtime_error (⟨.private_error, [3]⟩ : SampleEx).dyn = false →
          (TypeInfo.is_pointer SampleType.runtime_error = false
            ∨ (TypeInfo.is_nullptr_t (⟨.private_error, [3]⟩ : SampleEx).dyn = false
                ∧ (TypeInfo.is_pointer (⟨.private_error, [3]⟩ : SampleEx).dyn = false
                    ∨ TypeInfo.pointer_converts (⟨.private_error, [3]⟩ : SampleEx).dyn
                        SampleType.runtime_error = false))) →
          r.has_exception SampleType.runtime_error = some (false, r1))
      ∧ r1.unchecked_ = false
      ∧ (∀ b, r1.destructor b = some .silent) :=
  ⟨by decide,
    has_exception_kind_answer SampleType.runtime_error ⟨.private_error, [3]⟩ (by decide)⟩

/-- C14: the copy `c` of a Failure instance `s` has the discriminant, the
handle and the flag of `s`, and `s` is not written.  The two flags are
separate: after an inspection of the copy (`valid()`, and for a handle to a
captured exception also `get()` and `has_exception<K>()`) the copy is
destroyed silently, while `s`, not inspected, still fails the assertion or is
reported to the sink with its handle; and the same with the roles of `s` and
`c` exchanged. -/
theorem copy_failure_independent [DecidableEq Ty] [TypeInfo Ty]
    (p : exception_ptr (exception_object Ty C)) (x : exception_object Ty C) (u : Bool)
    (K : Ty) :
    copy_ctor (⟨.Ex_obj p, false, u⟩ : expected T (exception_object Ty C))
      = some ⟨.Ex_obj p, false, u⟩
    ∧ (∃ c : expected T (exception_object Ty C),
        copy_ctor ⟨.Ex_obj p, false, true⟩ = some c
        ∧ c.valid.2.unchecked_ = false
        ∧ (∀ b, c.valid.2.destructor b = some .silent)
        ∧ (⟨.Ex_obj p, false, true⟩ : expected T (exception_object Ty C)).destructor
            .BOOST_ASSERT = some (.assertion_failed "error result not checked")
        ∧ (⟨.Ex_obj p, false, true⟩ : expected T (exception_object Ty C)).destructor
            .LOG_UNCHECKED = some (.log_expected_unchecked p)
        ∧ (∀ b, (⟨.Ex_obj p, false, true⟩ :
            expected T (exception_object Ty C)).valid.2.destructor b = some .silent)
        ∧ c.destructor .BOOST_ASSERT = some (.assertion_failed "error result not checked")
        ∧ c.destructor .LOG_UNCHECKED = some (.log_expected_unchecked p))
    ∧ (∃ c c1 c2 : expected T (exception_object Ty C), ∃ ans : Bool,
        copy_ctor ⟨.Ex_obj (some x), false, true⟩ = some c
        ∧ c.get = some (.error x, c1)
        ∧ c.has_exception K = some (ans, c2)
        ∧ (∀ b, c1.destructor b = some .silent)
        ∧ (∀ b, c2.destructor b = some .silent)
        ∧ c1.val_ = c.val_ ∧ c2.val_ = c.val_ ∧ c1.valid_ = false ∧ c2.valid_ = false) := by
  refine ⟨rfl, ⟨_, rfl, rfl, ?_, rfl, rfl, ?_, rfl, rfl⟩,
    ⟨_, ⟨.Ex_obj (some x), false, false⟩, ⟨.Ex_obj (some x), false, false⟩,
      handler_matches K x.dyn, rfl, rfl, ?_, ?_, ?_, rfl, rfl, rfl, rfl⟩⟩
  · intro b
    cases b <;> rfl
  · intro b
    cases b <;> rfl
  · cases hm : handler_matches K x.dyn <;> simp [has_exception, p_Ex, copy_ctor, hm]
  · intro b
    cases b <;> rfl
  · intro b
    cases b <;> rfl

/-! ## The flag invariant -/

theorem flag_invariant_copy_ctor (a c : expected T X) (h : copy_ctor a = some c)
    (ha : a.flag_invariant = true) : c.flag_invariant = true := by
  obtain ⟨va, da, ua⟩ := a
  cases va <;> cases da <;> simp [copy_ctor, p_T, p_Ex] at h <;> subst h <;>
    simp_all [flag_invariant]

theorem flag_invariant_move_ctor [MovedFrom T] (a b a1 : expected T X)
    (h : move_ctor a = some (b, a1)) (ha : a.flag_invariant = true) :
    b.flag_invariant = true ∧ a1.flag_invariant = true := by
  obtain ⟨va, da, ua⟩ := a
  cases va <;> cases da <;> simp [move_ctor, p_T, p_Ex] at h <;> obtain ⟨h1, h2⟩ := h <;>
    subst h1 <;> subst h2 <;> simp_all [flag_invariant]

theorem flags_copy_assign (d s d1 : expected T X) (h : copy_assign d s = some d1) :
    d1.valid_ = d.valid_ ∧ d1.unchecked_ = d.unchecked_ := by
  unfold copy_assign at h
  split at h
  · simp at h
  · split at h <;> split at h <;> simp at h <;> subst h <;> exact ⟨rfl, rfl⟩

theorem flags_move_assign [MovedFrom T] (d s d1 s1 : expected T X)
    (h : move_assign d s = some (d1, s1)) :
    (d1.valid_ = d.valid_ ∧ d1.unchecked_ = d.unchecked_)
    ∧ (s1.valid_ = s.valid_ ∧ s1.unchecked_ = s.unchecked_) := by
  unfold move_assign at h
  split at h
  · simp at h
  · split at h <;> split at h <;> simp at h <;> obtain ⟨h1, h2⟩ := h <;>
      subst h1 <;> subst h2 <;> exact ⟨⟨rfl, rfl⟩, ⟨rfl, rfl⟩⟩

theorem flag_invariant_swap (a b a1 b1 : expected T X) (h : swap a b = some (a1, b1))
    (_ha : a.flag_invariant = true) (_hb : b.flag_invariant = true) :
    a1.flag_invariant = true ∧ b1.flag_invariant = true := by
  simp [swap] at h

theorem post_get (a a1 : expected T X) (res : Except X T) (h : get a = some (res, a1)) :
    a1 = { a with unchecked_ := false } := by
  unfold get at h
  split at h
  · split at h <;> simp at h
    exact h.2.symm
  · split at h <;> simp at h
    exact h.2.symm

theorem post_has_exception [DecidableEq Ty] [TypeInfo Ty] (E : Ty)
    (a a1 : expected T (exception_object Ty C)) (ans : Bool)
    (h : has_exception E a = some (ans, a1)) : a1 = { a with unchecked_ := false } := by
  unfold has_exception at h
  split at h
  · split at h
    · split at h <;> simp at h <;> exact h.2.symm
    · simp at h
  · simp at h
    exact h.2.symm

theorem reachable_flag_invariant [MovedFrom T] [DecidableEq Ty] [TypeInfo Ty]
    [Sliceable Ty C] (e : expected T (exception_object Ty C)) (h : reachable e) :
    e.flag_invariant = true := by
  induction h with
  | from_value v => rfl
  | from_rvalue v => rfl
  | from_exception p r l h =>
    simp [from_exception, move_ctor, p_Ex] at h
    rw [← h.1]
    rfl
  | from_exception_typed E x r l h =>
    unfold from_exception_typed at h
    split at h
    · simp at h
    · simp [from_exception, move_ctor, p_Ex] at h
      rw [← h.1]
      rfl
  | from_exception_current p r l h =>
    simp [from_exception_current, from_exception, move_ctor, p_Ex] at h
    rw [← h.1]
    rfl
  | copy_ctor a c _ h ih => exact flag_invariant_copy_ctor a c h ih
  | move_ctor_new a b a1 _ h ih => exact (flag_invariant_move_ctor a b a1 h ih).1
  | move_ctor_source a b a1 _ h ih => exact (flag_invariant_move_ctor a b a1 h ih).2
  | copy_assign d s d1 _ _ h ihd _ =>
    have := flags_copy_assign d s d1 h
    simpa [flag_invariant, this.1, this.2] using ihd
  | move_assign_dest d s d1 s1 _ _ h ihd _ =>
    have := (flags_move_assign d s d1 s1 h).1
    simpa [flag_invariant, this.1, this.2] using ihd
  | move_assign_source d s d1 s1 _ _ h _ ihs =>
    have := (flags_move_assign d s d1 s1 h).2
    simpa [flag_invariant, this.1, this.2] using ihs
  | swap_self a b a1 b1 _ _ h iha ihb => exact (flag_invariant_swap a b a1 b1 h iha ihb).1
  | swap_rhs a b a1 b1 _ _ h iha ihb => exact (flag_invariant_swap a b a1 b1 h iha ihb).2
  | valid a _ _ => rfl
  | get a res a1 _ h _ =>
    rw [post_get a a1 res h]
    rfl
  | has_exception E a ans a1 _ h _ =>
    rw [post_has_exception E a a1 ans h]
    rfl

/-! ## Destruction and the storage invariant -/

/-- C15: on every reachable state the destructor, when it has a result, takes
the unread-failure path exactly when `valid_` is false and `unchecked_` is
true, and the handle given to the sink is the one in the storage; it has a
result on every reachable state whose storage agrees with the discriminant.
The state reached by `d = from_exception(p); d = expected(1)` is reachable,
has `valid_ = false`, `unchecked_ = true` and an `int` in its storage, and
there the destructor of the logging build reads the `int` as a handle: no
stored failure handle reaches the sink. -/
theorem destructor_unread_iff_reachable [MovedFrom T] [DecidableEq Ty] [TypeInfo Ty]
    [Sliceable Ty C] (e : expected T (exception_object Ty C)) (b : Build) :
    (reachable e → ∀ ev, e.destructor b = some ev →
        (ev.unread_failure_path = true ↔ e.valid_ = false ∧ e.unchecked_ = true)
        ∧ (∀ p, ev = .log_expected_unchecked p → e.val_ = .Ex_obj p ∧ b = .LOG_UNCHECKED)
        ∧ (b = .LOG_UNCHECKED → ev.unread_failure_path = true →
            ∃ p, ev = .log_expected_unchecked p))
    ∧ (reachable e → e.well_formed = true → ∃ ev, e.destructor b = some ev)
    ∧ (∃ d l d1 : expected Nat SampleEx,
        from_exception (some sample_error) = some (d, l)
        ∧ copy_assign d (from_value 1) = some d1
        ∧ reachable d1
        ∧ d1.valid_ = false ∧ d1.unchecked_ = true ∧ d1.val_ = .T_obj 1
        ∧ d1.destructor .LOG_UNCHECKED = none) := by
  refine ⟨?_, ?_, ?_⟩
  · intro h ev hev
    have fi := reachable_flag_invariant e h
    obtain ⟨val, vd, un⟩ := e
    cases b <;> cases val <;> cases vd <;> cases un <;>
      simp [destructor, reset, p_T, p_Ex, flag_invariant] at hev fi <;>
      subst hev <;> simp [DtorEvent.unread_failure_path]
  · intro h hw
    have fi := reachable_flag_invariant e h
    obtain ⟨val, vd, un⟩ := e
    cases b <;> cases val <;> cases vd <;> cases un <;>
      simp [well_formed, flag_invariant] at hw fi <;> simp [destructor, reset, p_T, p_Ex]
  · exact ⟨_, _, _, rfl, rfl,
      reachable.copy_assign _ (from_value 1) _
        (reachable.from_exception (some sample_error) _ _ rfl) (reachable.from_value 1) rfl,
      rfl, rfl, rfl, rfl⟩

/-- C16: every constructor and factory produces a state whose storage agrees
with `valid_`, and `swap`, when it has a result (it has none, line 126),
keeps the agreement on both objects.  Copy and move assignment keep it when destination and source have
the same discriminant, and break it on the destination in every combination
with different discriminants: after `d = s` for `d = expected<int>(1)` and a
Failure `s`, the destination has `valid_ = true` over a stored handle. -/
theorem well_formed_assignment_breaks [MovedFrom T] [DecidableEq Ty] [TypeInfo Ty]
    [Sliceable Ty C] (v : T) (p : exception_ptr (exception_object Ty C))
    (a b : expected T (exception_object Ty C)) :
    (from_value v : expected T (exception_object Ty C)).well_formed = true
    ∧ (from_rvalue v : expected T (exception_object Ty C) × T).1.well_formed = true
    ∧ (∃ r l : expected T (exception_object Ty C), from_exception p = some (r, l)
        ∧ from_exception_current p = .ok (some (r, l))
        ∧ r.well_formed = true ∧ l.well_formed = true)
    ∧ (∀ (E : Ty) (x : exception_object Ty C) (r l : expected T (exception_object Ty C)),
        from_exception_typed E x = .ok (some (r, l)) → r.well_formed = true)
    ∧ (∀ a1 b1, a.well_formed = true → b.well_formed = true → swap a b = some (a1, b1) →
        a1.well_formed = true ∧ b1.well_formed = true)
    ∧ (a.well_formed = true → b.well_formed = true → a.valid_ = b.valid_ →
        (∃ d1, copy_assign a b = some d1 ∧ d1.well_formed = true)
        ∧ ∃ d1 s1, move_assign a b = some (d1, s1)
            ∧ d1.well_formed = true ∧ s1.well_formed = true)
    ∧ (a.well_formed = true → b.well_formed = true → a.valid_ ≠ b.valid_ →
        (∃ d1, copy_assign a b = some d1 ∧ d1.well_formed = false)
        ∧ ∃ d1 s1, move_assign a b = some (d1, s1) ∧ d1.well_formed = false)
    ∧ (∃ d1 : expected Nat SampleEx, copy_assign (from_value 1) sample_failure = some d1
        ∧ d1 = ⟨.Ex_obj (some sample_error), true, false⟩ ∧ d1.well_formed = false)
    ∧ (∃ d1 s1 : expected Nat SampleEx, move_assign sample_failure (from_value 1) = some (d1, s1)
        ∧ d1 = ⟨.T_obj 1, false, true⟩ ∧ d1.well_formed = false) := by
  refine ⟨rfl, rfl, ⟨_, _, rfl, rfl, rfl, rfl⟩, ?_, ?_, ?_, ?_, ⟨_, rfl, rfl, rfl⟩,
    ⟨_, _, rfl, rfl, rfl⟩⟩
  · intro E x r l h
    unfold from_exception_typed at h
    split at h
    · simp at h
    · simp [from_exception, move_ctor, p_Ex] at h
      rw [← h.1]
      rfl
  · intro a1 b1 _ _ h
    simp [swap] at h
  · intro ha hb hv
    obtain ⟨va, da, ua⟩ := a
    obtain ⟨vb, db, ub⟩ := b
    cases va <;> cases vb <;> simp [well_formed] at ha hb <;> subst ha <;> subst hb <;>
      simp at hv <;> exact ⟨⟨_, rfl, rfl⟩, ⟨_, _, rfl, rfl, rfl⟩⟩
  · intro ha hb hv
    obtain ⟨va, da, ua⟩ := a
    obtain ⟨vb, db, ub⟩ := b
    cases va <;> cases vb <;> simp [well_formed] at ha hb <;> subst ha <;> subst hb <;>
      simp at hv <;> exact ⟨⟨_, rfl, rfl⟩, ⟨_, _, rfl, rfl⟩⟩

/-- C18: the two value constructors and the three factories establish
`unchecked_ → !valid_`, also on the moved-from local of a factory; copy and
move construction, copy and move assignment, `swap`, `valid`, `get` and
`has_exception` preserve it on every object they touch; hence it holds on
every reachable state, and on a reachable state with `valid_ = true` the flag
`unchecked_` is false, so the destructor does not read the storage as a
handle: it only runs `reset()` and stays silent. -/
theorem flag_invariant_all_operations [MovedFrom T] [DecidableEq Ty] [TypeInfo Ty]
    [Sliceable Ty C] (v : T) (p : exception_ptr (exception_object Ty C))
    (a b : expected T (exception_object Ty C)) :
    ((from_value v : expected T (exception_object Ty C)).flag_invariant = true
      ∧ (from_rvalue v : expected T (exception_object Ty C) × T).1.flag_invariant = true
      ∧ (∃ r l : expected T (exception_object Ty C), from_exception p = some (r, l)
          ∧ from_exception_current p = .ok (some (r, l))
          ∧ r.flag_invariant = true ∧ l.flag_invariant = true)
      ∧ (∀ (E : Ty) (x : exception_object Ty C) (r l : expected T (exception_object Ty C)),
          from_exception_typed E x = .ok (some (r, l)) →
          r.flag_invariant = true ∧ l.flag_invariant = true))
    ∧ (a.flag_invariant = true → b.flag_invariant = true →
        (∀ c, copy_ctor a = some c → c.flag_invariant = true)
        ∧ (∀ c a1, move_ctor a = some (c, a1) →
            c.flag_invariant = true ∧ a1.flag_invariant = true)
        ∧ (∀ d1, copy_assign a b = some d1 → d1.flag_invariant = true)
        ∧ (∀ d1 s1, move_assign a b = some (d1, s1) →
            d1.flag_invariant = true ∧ s1.flag_invariant = true)
        ∧ (∀ a1 b1, swap a b = some (a1, b1) →
            a1.flag_invariant = true ∧ b1.flag_invariant = true))
    ∧ (a.valid.2.flag_invariant = true
        ∧ (∀ res a1, a.get = some (res, a1) → a1.flag_invariant = true)
        ∧ (∀ (E : Ty) ans a1, a.has_exception E = some (ans, a1) → a1.flag_invariant = true))
    ∧ (reachable a →
        (a.unchecked_ = true → a.valid_ = false)
        ∧ (a.valid_ = true → a.unchecked_ = false
            ∧ ∀ bld, a.destructor bld = a.reset.map (fun _ => DtorEvent.silent))) := by
  refine ⟨⟨rfl, rfl, ⟨_, _, rfl, rfl, rfl, rfl⟩, ?_⟩, ?_, ⟨rfl, ?_, ?_⟩, ?_⟩
  · intro E x r l h
    unfold from_exception_typed at h
    split at h
    · simp at h
    · simp [from_exception, move_ctor, p_Ex] at h
      rw [← h.1, ← h.2]
      exact ⟨rfl, rfl⟩
  · intro ha hb
    refine ⟨fun c h => flag_invariant_copy_ctor a c h ha,
      fun c a1 h => flag_invariant_move_ctor a c a1 h ha, ?_, ?_,
      fun a1 b1 h => flag_invariant_swap a b a1 b1 h ha hb⟩
    · intro d1 h
      have := flags_copy_assign a b d1 h
      simpa [flag_invariant, this.1, this.2] using ha
    · intro d1 s1 h
      have := flags_move_assign a b d1 s1 h
      constructor
      · simpa [flag_invariant, this.1.1, this.1.2] using ha
      · simpa [flag_invariant, this.2.1, this.2.2] using hb
  · intro res a1 h
    rw [post_get a a1 res h]
    rfl
  · intro E ans a1 h
    rw [post_has_exception E a a1 ans h]
    rfl
  · intro h
    have fi := reachable_flag_invariant a h
    obtain ⟨val, vd, un⟩ := a
    cases vd <;> cases un <;> simp [flag_invariant] at fi <;> simp
    intro bld
    cases bld <;> cases val <;> rfl

/-- C19: `valid()` always, and `get()` and `has_exception<E>()` on every call
that returns or throws, leave the instance exactly as it was but for
`unchecked_ = false`: discriminant and payload are not written and the flag
is never set to true; a second inspection leaves the result of the first
unchanged; `has_exception<E>()` completes on every instance with
`valid_ = true`, and both complete on every instance that holds a value or a
handle to a captured exception. -/
theorem inspections_write_only_unchecked [DecidableEq Ty] [TypeInfo Ty] (E : Ty)
    (e : expected T (exception_object Ty C)) :
    e.valid = (e.valid_, { e with unchecked_ := false })
    ∧ (∀ res e1, e.get = some (res, e1) → e1 = { e with unchecked_ := false })
    ∧ (∀ ans e1, e.has_exception E = some (ans, e1) → e1 = { e with unchecked_ := false })
    ∧ (e.valid.2.valid.2 = e.valid.2
        ∧ (∀ res e1 res2 e2, e.get = some (res, e1) → e1.get = some (res2, e2) →
            e2 = e1 ∧ res2 = res)
        ∧ (∀ ans e1 ans2 e2, e.has_exception E = some (ans, e1) →
            e1.has_exception E = some (ans2, e2) → e2 = e1 ∧ ans2 = ans))
    ∧ (e.valid_ = true → e.has_exception E = some (false, { e with unchecked_ := false }))
    ∧ (e.holds_value_or_failure = true →
        (∃ res, e.get = some (res, { e with unchecked_ := false }))
        ∧ ∃ ans, e.has_exception E = some (ans, { e with unchecked_ := false })) := by
  refine ⟨rfl, fun res e1 h => post_get e e1 res h,
    fun ans e1 h => post_has_exception E e e1 ans h, ⟨rfl, ?_, ?_⟩, ?_, ?_⟩
  · intro res e1 res2 e2 h1 h2
    have p1 := post_get e e1 res h1
    subst p1
    have p2 := post_get _ e2 res2 h2
    refine ⟨p2, ?_⟩
    obtain ⟨val, vd, un⟩ := e
    cases val <;> cases vd <;> simp [get, p_T, p_Ex] at h1 h2
    · rw [← h1, ← h2.1]
    · rename_i q
      cases q <;> simp at h1 h2
      rw [← h1, ← h2.1]
  · intro ans e1 ans2 e2 h1 h2
    have p1 := post_has_exception E e e1 ans h1
    subst p1
    have p2 := post_has_exception E _ e2 ans2 h2
    refine ⟨p2, ?_⟩
    obtain ⟨val, vd, un⟩ := e
    cases vd
    · cases val with
      | T_obj v => simp [has_exception, p_Ex] at h1
      | Ex_obj q =>
        cases q with
        | none => simp [has_exception, p_Ex] at h1
        | some x =>
          cases hm : handler_matches E x.dyn <;>
            simp [has_exception, p_Ex, hm] at h1 h2 <;> rw [h1, h2.1]
    · simp [has_exception] at h1 h2
      rw [h1, h2.1]
  · intro hv
    simp [has_exception, hv]
  · intro hh
    obtain ⟨val, vd, un⟩ := e
    cases val with
    | T_obj v =>
      simp only [holds_value_or_failure] at hh
      subst hh
      exact ⟨⟨_, rfl⟩, ⟨_, rfl⟩⟩
    | Ex_obj q =>
      cases q with
      | none => simp [holds_value_or_failure] at hh
      | some x =>
        simp [holds_value_or_failure] at hh
        subst hh
        refine ⟨⟨_, rfl⟩, ?_⟩
        cases hm : handler_matches E x.dyn
        · exact ⟨false, by simp [has_exception, p_Ex, hm]⟩
        · exact ⟨true, by simp [has_exception, p_Ex, hm]⟩

end claims

end expected

namespace error

/-- C17: streaming an `info_holder` appends to the stream exactly
`error_code(` + message + `, ec=` + decimal value + `, ecat=` + category name
+ `)`, for every error code; on an empty stream the text is all there is. -/
theorem info_holder_streams_error_code (stm : ostream) (ec : error_code) :
    info_holder.operator_shl stm { _ec := ec }
      = stm ++ ("error_code(" ++ ec.message ++ ", ec=" ++ decimal ec.value
          ++ ", ecat=" ++ ec.category.name ++ ")")
    ∧ info_holder.operator_shl "" { _ec := ec }
      = "error_code(" ++ ec.message ++ ", ec=" ++ decimal ec.value
          ++ ", ecat=" ++ ec.category.name ++ ")"
    ∧ info_holder.operator_shl "" { _ec := { value := 2, category := sample_category } }
      = "error_code(No such file or directory, ec=2, ecat=generic)"
    ∧ decimal (-5) = "-5" := by
  refine ⟨?_, ?_, ?_, ?_⟩
  · simp [info_holder.operator_shl, String.append_assoc]
  · simp [info_holder.operator_shl, String.append_assoc]
  · decide
  · decide

end error

end util
